import Mathlib

/- Shallow embedding of the NuvlaBox agent state reconciliation subsystem:
   src/code/app.py (scheduler loop and pull mode job dispatch),
   src/code/agent/AgentApi.py (peripheral dual store CRUD) and
   src/code/agent/Telemetry.py (status diff and publish).
   External collaborators (the Nuvla remote API, the filesystem, docker,
   clocks) are modelled as explicit world parameters threaded through each
   operation; Python exceptions are modelled with Except, where an error
   value stands for an exception propagating out of the translated code. -/

namespace Nuvlabox

/- Python JSON like values. Sequences are encoded as acons chains ending in
   anil, objects as ofield chains ending in onil. Structural equality on this
   type models the deep value equality used by the Python code. Python dict
   equality additionally ignores key order; that difference is not exercised
   here because no compared objects differ only by field order. -/
inductive PValue where
  | null
  | pbool (b : Bool)
  | pint (n : Int)
  | pstr (s : String)
  | anil
  | acons (head tail : PValue)
  | onil
  | ofield (key : String) (value rest : PValue)
deriving DecidableEq, Repr

/- Python truthiness: None, False, 0, the empty string and empty containers
   are falsy, everything else is truthy. -/
def pyTruthy : PValue → Bool
  | .null => false
  | .pbool b => b
  | .pint n => n != 0
  | .pstr s => s != ""
  | .anil => false
  | .acons _ _ => true
  | .onil => false
  | .ofield _ _ _ => true

/- isinstance(x, dict) on the encoding. -/
def isObj : PValue → Bool
  | .onil => true
  | .ofield _ _ _ => true
  | _ => false

/- isinstance(x, list) on the encoding. -/
def isArr : PValue → Bool
  | .anil => true
  | .acons _ _ => true
  | _ => false

/- Well formed object chains: every tail of an ofield chain is again an
   object chain. The translated code only builds and consumes such chains. -/
def isObjChain : PValue → Bool
  | .onil => true
  | .ofield _ _ rest => isObjChain rest
  | _ => false

/- Dictionary key lookup, d[k] respectively k in d: none models a KeyError
   respectively a failed membership test. -/
def objLookup : PValue → String → Option PValue
  | .ofield k v rest, key => if k = key then some v else objLookup rest key
  | _, _ => none

/- Dictionary assignment d[k] = v: replaces the binding when the key exists,
   appends it otherwise. On a non object value the translated code never
   reaches this operation. -/
def objSet : PValue → String → PValue → PValue
  | .ofield k v rest, key, nv =>
      if k = key then .ofield k nv rest else .ofield k v (objSet rest key nv)
  | .onil, key, nv => .ofield key nv .onil
  | other, _, _ => other

/- d.get(k): None when the key is missing. -/
def pyGet (v : PValue) (k : String) : PValue :=
  (objLookup v k).getD .null

/- str(x) as used for building file paths and messages. Peripheral
   identifiers are strings per the data model; the container cases never
   occur as identifiers and are abstracted. -/
def pyStr : PValue → String
  | .pstr s => s
  | .pint n => toString n
  | .pbool true => "True"
  | .pbool false => "False"
  | .null => "None"
  | _ => "object"

/- The elements of an encoded sequence, in order. -/
def arrToList : PValue → List PValue
  | .acons h t => h :: arrToList t
  | _ => []

/- Encode a list of values as a sequence. -/
def arrOfList : List PValue → PValue
  | [] => .anil
  | h :: t => .acons h (arrOfList t)

/- A single field error body, as the Python dict literals with one key. -/
def errBody (msg : String) : PValue := .ofield "error" (.pstr msg) .onil

def msgBody (msg : String) : PValue := .ofield "message" (.pstr msg) .onil

/- ---------------------------------------------------------------- -/
/- Scheduler timing, src/code/app.py lines 230 to 235.               -/
/- ---------------------------------------------------------------- -/

/- app.py line 233: next_cycle_in = refresh_interval - 2 * cycle_duration.
   The expression performs no clamping. Durations are modelled as rationals
   since time.time differences are real valued. -/
def next_cycle_in (refresh_interval cycle_duration : ℚ) : ℚ :=
  refresh_interval - 2 * cycle_duration

/- app.py line 235 sleeps with e.wait and timeout next_cycle_in. CPython
   Condition.wait acquires non blocking when the timeout is not positive, so
   the effective sleep duration is the timeout clamped below at zero. -/
def eventWaitSleep (timeout : ℚ) : ℚ := max 0 timeout

/-- Claim C1 counterexample: with refresh interval 10 and cycle duration 6
the computed wait next_cycle_in is -2 and not 0. The code performs no
clamping when computing the wait, contradicting the claim that the computed
wait equals the difference clamped to a non negative value. -/
theorem claim_C1_cex : next_cycle_in 10 6 = -2 ∧ next_cycle_in 10 6 ≠ 0 := by
  constructor <;> norm_num [next_cycle_in]

/-- Claim C1 amended: the computed wait equals refresh minus twice the cycle
duration without clamping, so at refresh 10 and duration 6 it is -2, not 0;
the clamp happens only at the sleep site, where the event wait treats a non
positive timeout as zero, so the effectively slept duration is the non
negative clamp of the computed wait: 8 at duration 1 and 0 at duration 6. -/
theorem claim_C1_amended (r t : ℚ) :
    eventWaitSleep (next_cycle_in r t) = max 0 (r - 2 * t) ∧
    next_cycle_in 10 1 = 8 ∧ next_cycle_in 10 6 = -2 ∧
    eventWaitSleep (next_cycle_in 10 6) = 0 := by
  refine ⟨rfl, by norm_num [next_cycle_in], by norm_num [next_cycle_in],
    by norm_num [next_cycle_in, eventWaitSleep]⟩

/- ---------------------------------------------------------------- -/
/- Status diff, src/code/agent/Telemetry.py lines 307 to 318.        -/
/- ---------------------------------------------------------------- -/

/- A status snapshot entry: a key of a Python dict is either absent, in which
   case indexing raises KeyError, or bound to a value, where PValue.null
   models the Python None used by the code for unknown fields. -/
inductive Entry where
  | absent
  | val (v : PValue)
deriving DecidableEq, Repr

/- A snapshot maps the schema keys to entries. -/
def Snapshot := String → Entry

/- The fixed schema: the keys of the self.status placeholder dict built in
   Telemetry.__init__, in insertion order (Telemetry.py lines 45 to 55). -/
def statusKeys : List String :=
  ["resources", "status", "nuvlabox-api-endpoint", "operating-system",
   "architecture", "ip", "last-boot", "hostname", "docker-server-version",
   "gpio-pins"]

/- The loop body of Telemetry.diff, iterating over self.status.keys():
   new_status[key] is indexed first (KeyError when absent); a None value
   appends the key to delete_attributes and continues; otherwise
   old_status[key] is indexed (KeyError when absent) and compared with !=,
   a difference recording the key in minimal_update. -/
def diffGo (old_status new_status : Snapshot) :
    List String → List (String × PValue) × List String →
    Except String (List (String × PValue) × List String)
  | [], acc => .ok acc
  | key :: keys, acc =>
    match new_status key with
    | .absent => .error "KeyError"
    | .val v =>
      if v = .null then diffGo old_status new_status keys (acc.1, acc.2 ++ [key])
      else
        match old_status key with
        | .absent => .error "KeyError"
        | .val w =>
          if w ≠ v then diffGo old_status new_status keys (acc.1 ++ [(key, v)], acc.2)
          else diffGo old_status new_status keys acc

/- Telemetry.diff: returns (minimal_update, delete_attributes) or raises. -/
def diff (old_status new_status : Snapshot) :
    Except String (List (String × PValue) × List String) :=
  diffGo old_status new_status statusKeys ([], [])

/- The per key contribution of diff to minimal_update, provided neither
   indexing raises. -/
def diffUpd (old_status new_status : Snapshot) (key : String) :
    Option (String × PValue) :=
  match new_status key, old_status key with
  | .val v, .val w => if v ≠ .null ∧ w ≠ v then some (key, v) else none
  | _, _ => none

/- The per key contribution of diff to delete_attributes. -/
def diffDel (new_status : Snapshot) (key : String) : Bool :=
  new_status key = .val .null

/- Closed form of the diff loop when no indexing raises: the accumulators
   just collect the per key contributions in schema order. -/
theorem diffGo_closed (old_status new_status : Snapshot) :
    ∀ (keys : List String) (acc : List (String × PValue) × List String),
    (∀ k ∈ keys, new_status k ≠ .absent ∧
      (∀ v, new_status k = .val v → v ≠ .null → old_status k ≠ .absent)) →
    diffGo old_status new_status keys acc =
      .ok (acc.1 ++ keys.filterMap (diffUpd old_status new_status),
           acc.2 ++ keys.filter (diffDel new_status)) := by
  intro keys
  induction keys with
  | nil => intro acc _; simp [diffGo]
  | cons key keys ih =>
    intro acc h
    have hk := h key (by simp)
    have hrest : ∀ k ∈ keys, new_status k ≠ .absent ∧
        (∀ v, new_status k = .val v → v ≠ .null → old_status k ≠ .absent) := by
      intro k hmem; exact h k (by simp [hmem])
    cases hnew : new_status key with
    | absent => exact absurd hnew hk.1
    | val v =>
      by_cases hv : v = PValue.null
      · subst hv
        have hupd : diffUpd old_status new_status key = none := by
          cases hold2 : old_status key <;> simp [diffUpd, hnew, hold2]
        have hdel : diffDel new_status key = true := by
          simp [diffDel, hnew]
        simp only [diffGo, hnew, if_pos rfl]
        rw [ih _ hrest]
        simp [List.filterMap_cons, List.filter_cons, hupd, hdel,
          List.append_assoc]
      · cases hold : old_status key with
        | absent => exact absurd hold (hk.2 v hnew hv)
        | val w =>
          have hupd : diffUpd old_status new_status key =
              (if v ≠ PValue.null ∧ w ≠ v then some (key, v) else none) := by
            simp [diffUpd, hnew, hold]
          have hdel : diffDel new_status key = false := by
            simp [diffDel, hnew, hv]
          by_cases hw : w = v
          · subst hw
            simp only [diffGo, hnew, hold, if_neg hv]
            rw [if_neg (show ¬ (w ≠ w) from by simp)]
            rw [ih _ hrest]
            simp [List.filterMap_cons, List.filter_cons, hupd, hdel]
          · simp only [diffGo, hnew, hold, if_neg hv]
            rw [if_pos (show w ≠ v from hw)]
            rw [ih _ hrest]
            simp [List.filterMap_cons, List.filter_cons, hupd, hdel, hv, hw,
              List.append_assoc]

/- If some schema key is absent in the new snapshot, the diff loop raises. -/
theorem diffGo_absent (old_status new_status : Snapshot) :
    ∀ (keys : List String) (acc : List (String × PValue) × List String)
    (k : String), k ∈ keys → new_status k = .absent →
    ∃ e, diffGo old_status new_status keys acc = .error e := by
  intro keys
  induction keys with
  | nil => intro _ k hk; simp at hk
  | cons key keys ih =>
    intro acc k hk habs
    rcases List.mem_cons.mp hk with hEq | hMem
    · subst hEq
      refine ⟨"KeyError", ?_⟩
      simp only [diffGo, habs]
    · cases hnew : new_status key with
      | absent =>
        refine ⟨"KeyError", ?_⟩
        simp only [diffGo, hnew]
      | val v =>
        by_cases hv : v = PValue.null
        · subst hv
          simp only [diffGo, hnew, if_pos rfl]
          exact ih _ k hMem habs
        · cases hold : old_status key with
          | absent =>
            refine ⟨"KeyError", ?_⟩
            simp only [diffGo, hnew, hold, if_neg hv]
          | val w =>
            simp only [diffGo, hnew, hold, if_neg hv]
            by_cases hw : w = v
            · rw [if_neg (show ¬ (w ≠ v) from by simp [hw])]
              exact ih _ k hMem habs
            · rw [if_pos (show w ≠ v from hw)]
              exact ih _ k hMem habs

/- Any pair produced by diffUpd carries its own key and witnesses the
   differing values. -/
theorem diffUpd_some {o n : Snapshot} {a : String} {p : String × PValue}
    (h : diffUpd o n a = some p) :
    p.1 = a ∧ n a = .val p.2 ∧ p.2 ≠ PValue.null ∧
    ∃ w, o a = .val w ∧ w ≠ p.2 := by
  cases hn : n a with
  | absent => simp [diffUpd, hn] at h
  | val v =>
    cases ho : o a with
    | absent => simp [diffUpd, hn, ho] at h
    | val w =>
      simp only [diffUpd, hn, ho] at h
      by_cases hc : v ≠ PValue.null ∧ w ≠ v
      · rw [if_pos hc] at h
        cases h
        exact ⟨rfl, rfl, hc.1, w, rfl, hc.2⟩
      · rw [if_neg hc] at h
        cases h

/- Concrete snapshots exhibiting the absent key behaviour of diff. -/
def c7old : Snapshot := fun _ => .val .null

def c7new : Snapshot := fun k =>
  if k = "gpio-pins" then .absent else .val (.pint 1)

/-- Claim C7 counterexample: with an old snapshot binding every schema key to
None and a new snapshot where gpio-pins is absent (exactly what get_status
produces on a device without the GPIO utility), diff raises a KeyError
instead of returning a result placing gpio-pins in the delete list, so the
claim that an absent key is added to deleteList is false. -/
theorem claim_C7_cex :
    diff c7old c7new = Except.error "KeyError" ∧
    ∀ r, diff c7old c7new ≠ Except.ok r := by
  have h : diff c7old c7new = Except.error "KeyError" := by rfl
  exact ⟨h, fun r hr => by rw [h] at hr; exact Except.noConfusion hr⟩

/-- Claim C7 amended: when every schema key is present in the new snapshot
(and present in the old one whenever its new value is not null), diff
returns (updateMap, deleteList) with, for every schema key: a null new value
puts the key in deleteList and not in updateMap; a non null new value that
differs from the old one puts the pair in updateMap and not in deleteList;
an unchanged non null value appears in neither; hence compute(S, S) is
(empty, empty) for every snapshot S total on the schema with no null field.
However, when the new snapshot lacks a schema key, diff raises a KeyError
instead of recording a deletion. -/
theorem claim_C7_amended :
    (∀ old_status new_status : Snapshot,
      (∀ k ∈ statusKeys, new_status k ≠ .absent ∧
        (∀ v, new_status k = .val v → v ≠ .null → old_status k ≠ .absent)) →
      ∃ u d, diff old_status new_status = .ok (u, d) ∧
        ∀ k ∈ statusKeys,
          (new_status k = .val .null → k ∈ d ∧ k ∉ u.map Prod.fst) ∧
          (∀ v w, new_status k = .val v → v ≠ .null → old_status k = .val w →
            w ≠ v → (k, v) ∈ u ∧ k ∉ d) ∧
          (∀ v, new_status k = .val v → v ≠ .null → old_status k = .val v →
            k ∉ u.map Prod.fst ∧ k ∉ d)) ∧
    (∀ S : Snapshot, (∀ k ∈ statusKeys, ∃ v, S k = .val v ∧ v ≠ .null) →
      diff S S = .ok ([], [])) ∧
    (∀ old_status new_status : Snapshot, ∀ k ∈ statusKeys,
      new_status k = .absent →
      ∃ e, diff old_status new_status = .error e) := by
  refine ⟨?_, ?_, ?_⟩
  · intro old_status new_status hTot
    have hcl := diffGo_closed old_status new_status statusKeys ([], []) hTot
    refine ⟨statusKeys.filterMap (diffUpd old_status new_status),
      statusKeys.filter (diffDel new_status), by simpa [diff] using hcl, ?_⟩
    intro k hk
    refine ⟨?_, ?_, ?_⟩
    · intro hnull
      constructor
      · exact List.mem_filter.mpr ⟨hk, by simp [diffDel, hnull]⟩
      · intro hmem
        obtain ⟨p, hpmem, hfst⟩ := List.mem_map.mp hmem
        obtain ⟨a, _, hfa⟩ := List.mem_filterMap.mp hpmem
        obtain ⟨hpa, hna, hpnull, _⟩ := diffUpd_some hfa
        rw [hpa] at hfst
        subst hfst
        rw [hnull] at hna
        exact hpnull (Entry.val.inj hna).symm
    · intro v w hnv hvnull hov hwv
      constructor
      · refine List.mem_filterMap.mpr ⟨k, hk, ?_⟩
        simp [diffUpd, hnv, hov, hvnull, hwv]
      · intro hd
        have := (List.mem_filter.mp hd).2
        simp [diffDel, hnv] at this
        exact hvnull this
    · intro v hnv hvnull hov
      constructor
      · intro hmem
        obtain ⟨p, hpmem, hfst⟩ := List.mem_map.mp hmem
        obtain ⟨a, _, hfa⟩ := List.mem_filterMap.mp hpmem
        obtain ⟨hpa, hna, _, ⟨w, how, hwp⟩⟩ := diffUpd_some hfa
        rw [hpa] at hfst
        subst hfst
        rw [hnv] at hna
        rw [hov] at how
        exact hwp ((Entry.val.inj how).symm.trans (Entry.val.inj hna))
      · intro hd
        have := (List.mem_filter.mp hd).2
        simp [diffDel, hnv] at this
        exact hvnull this
  · intro S hS
    have hTot : ∀ k ∈ statusKeys, S k ≠ .absent ∧
        (∀ v, S k = .val v → v ≠ .null → S k ≠ .absent) := by
      intro k hk
      obtain ⟨v, hv, _⟩ := hS k hk
      exact ⟨by simp [hv], fun _ _ _ => by simp [hv]⟩
    have hcl := diffGo_closed S S statusKeys ([], []) hTot
    have hupd : statusKeys.filterMap (diffUpd S S) = [] := by
      refine List.filterMap_eq_nil_iff.mpr ?_
      intro k hk
      obtain ⟨v, hv, _⟩ := hS k hk
      simp [diffUpd, hv]
    have hdel : statusKeys.filter (diffDel S) = [] := by
      refine List.filter_eq_nil_iff.mpr ?_
      intro k hk
      obtain ⟨v, hv, hvn⟩ := hS k hk
      simp [diffDel, hv, hvn]
    rw [diff, hcl, hupd, hdel]
    simp
  · intro old_status new_status k hk habs
    exact diffGo_absent old_status new_status statusKeys ([], []) k hk habs

/- Concrete snapshots for the amended witness. -/
def c7wOld : Snapshot := fun _ => .val .null

def c7wNew : Snapshot := fun _ => .val (.pint 1)

def c7wSame : Snapshot := fun _ => .val (.pint 7)

theorem claim_C7_witness :
    ((∀ k ∈ statusKeys, c7wNew k ≠ .absent ∧
      (∀ v, c7wNew k = .val v → v ≠ .null → c7wOld k ≠ .absent)) ∧
     ∃ u d, diff c7wOld c7wNew = .ok (u, d) ∧
        ∀ k ∈ statusKeys,
          (c7wNew k = .val .null → k ∈ d ∧ k ∉ u.map Prod.fst) ∧
          (∀ v w, c7wNew k = .val v → v ≠ .null → c7wOld k = .val w →
            w ≠ v → (k, v) ∈ u ∧ k ∉ d) ∧
          (∀ v, c7wNew k = .val v → v ≠ .null → c7wOld k = .val v →
            k ∉ u.map Prod.fst ∧ k ∉ d)) ∧
    ((∀ k ∈ statusKeys, ∃ v, c7wSame k = .val v ∧ v ≠ .null) ∧
     diff c7wSame c7wSame = .ok ([], [])) ∧
    ((("gpio-pins" : String) ∈ statusKeys ∧ c7old "gpio-pins" ≠ .absent ∧
       c7new "gpio-pins" = .absent) ∧
     ∃ e, diff c7old c7new = .error e) := by
  have h1 : ∀ k ∈ statusKeys, c7wNew k ≠ .absent ∧
      (∀ v, c7wNew k = .val v → v ≠ .null → c7wOld k ≠ .absent) := by
    intro k _
    exact ⟨by simp [c7wNew], fun _ _ _ => by simp [c7wOld]⟩
  have h2 : ∀ k ∈ statusKeys, ∃ v, c7wSame k = .val v ∧ v ≠ .null := by
    intro k _
    exact ⟨.pint 7, rfl, by simp⟩
  refine ⟨⟨h1, claim_C7_amended.1 c7wOld c7wNew h1⟩,
    ⟨h2, claim_C7_amended.2.1 c7wSame h2⟩,
    ⟨⟨by decide, by simp [c7old], by simp [c7new]⟩,
     claim_C7_amended.2.2 c7old c7new "gpio-pins" (by decide)
       (by simp [c7new])⟩⟩

/- ---------------------------------------------------------------- -/
/- Telemetry.update_status, src/code/agent/Telemetry.py 320 to 334.  -/
/- ---------------------------------------------------------------- -/

/- External collaborators of one update_status call: the status collection
   (get_status), the wall clock string, the remote partial update _cimi_put
   and the shared status file write. Each Except error models the call
   raising an exception. -/
structure TelemetryWorld where
  getStatusResult : Except String (Snapshot × PValue)
  nowTime : String
  putResult : List (String × PValue) → Except String PValue
  writeResult : Except String Unit

/- The state owned by the Telemetry object: self.status (the last published
   snapshot), self.nb_status_id and the shared status file content. -/
structure TelemetryState where
  status : Snapshot
  nbStatusId : PValue
  statusFile : Option PValue

/- Python dict assignment on an association list dict: replace the binding
   when the key exists, append it otherwise. -/
def assocSet (l : List (String × PValue)) (k : String) (v : PValue) :
    List (String × PValue) :=
  match l with
  | [] => [(k, v)]
  | (k0, v0) :: t => if k0 = k then (k, v) :: t else (k0, v0) :: assocSet t k v

/- Telemetry.update_status: collect the new status, diff it against
   self.status, stamp current-time and id into the minimal update, push the
   partial update with _cimi_put, and only on success assign self.status and
   rewrite the shared status file. The Python function has no return
   statement, so its normal value is None, modelled as Unit. -/
def update_status (w : TelemetryWorld) (st : TelemetryState) :
    Except String Unit × TelemetryState :=
  match w.getStatusResult with
  | .error e => (.error e, st)
  | .ok (new_status, all_status) =>
    match diff st.status new_status with
    | .error e => (.error e, st)
    | .ok (minimal_update, _delete_attributes) =>
      let updated_status :=
        assocSet (assocSet minimal_update "current-time" (.pstr w.nowTime))
          "id" st.nbStatusId
      match w.putResult updated_status with
      | .error e => (.error e, st)
      | .ok _ =>
        let st1 : TelemetryState := { st with status := new_status }
        match w.writeResult with
        | .error e => (.error e, st1)
        | .ok _ => (.ok (), { st1 with statusFile := some all_status })

/-- Claim C10: if the remote partial update performed inside update_status
raises, then the in memory last published snapshot (self.status) and the
shared status file are left unchanged: the returned state equals the input
state and the error is surfaced, so everything that differed from the last
successful publish is diffed again on the next cycle. -/
theorem claim_C10_put_failure (w : TelemetryWorld) (st : TelemetryState)
    (ns : Snapshot) (alls : PValue) (mu : List (String × PValue))
    (da : List String) (e : String)
    (hget : w.getStatusResult = .ok (ns, alls))
    (hdiff : diff st.status ns = .ok (mu, da))
    (hput : w.putResult
      (assocSet (assocSet mu "current-time" (.pstr w.nowTime)) "id"
        st.nbStatusId) = .error e) :
    update_status w st = (.error e, st) := by
  simp [update_status, hget, hdiff, hput]

/- Concrete witness data for C10. -/
def c10snap : Snapshot := fun _ => .val .null

def c10w : TelemetryWorld :=
  { getStatusResult := .ok (c10snap, .pstr "all")
    nowTime := "2020-01-01T00:00:00"
    putResult := fun _ => .error "ConnectionError"
    writeResult := .ok () }

def c10st : TelemetryState :=
  { status := c10snap
    nbStatusId := .pstr "nuvlabox-status/1"
    statusFile := none }

theorem claim_C10_witness :
    c10w.getStatusResult = .ok (c10snap, .pstr "all") ∧
    diff c10st.status c10snap = .ok ([], statusKeys) ∧
    update_status c10w c10st = (.error "ConnectionError", c10st) := by
  refine ⟨rfl, by rfl, ?_⟩
  exact claim_C10_put_failure c10w c10st c10snap (.pstr "all") [] statusKeys
    "ConnectionError" rfl (by rfl) rfl

/- ---------------------------------------------------------------- -/
/- Peripheral dual store CRUD, src/code/agent/AgentApi.py.           -/
/- ---------------------------------------------------------------- -/

/- One record file of the .peripherals directory: unreadable models a file
   whose open raises, corrupt one whose content fails json.loads, record
   one holding a JSON payload. -/
inductive FileContent where
  | unreadable
  | corrupt (raw : String)
  | record (v : PValue)
deriving DecidableEq, Repr

/- The .peripherals directory: file name (the stringified identifier)
   mapped to content. Names are unique in a directory. -/
abbrev LocalStore := List (String × FileContent)

def storeLookup : LocalStore → String → Option FileContent
  | [], _ => none
  | (n, c) :: t, name => if n = name then some c else storeLookup t name

/- Writing a file: replace the content when the name exists, create the
   file otherwise. -/
def storeSet : LocalStore → String → FileContent → LocalStore
  | [], name, c => [(name, c)]
  | (n, c0) :: t, name, c =>
      if n = name then (name, c) :: t else (n, c0) :: storeSet t name c

/- os.remove of a file name. -/
def storeRemove (s : LocalStore) (name : String) : LocalStore :=
  s.filter (fun e => e.1 != name)

/- Outcome of one remote Nuvla call: ok with the response data object,
   NuvlaError carrying a structured response, or any other exception with
   its message. -/
inductive RemoteOutcome where
  | ok (data : PValue)
  | nuvlaError (statusCode : Nat) (body : PValue)
  | exc (msg : String)

/- The remote calls a CRUD operation performs, in order. -/
inductive RemoteCall where
  | add (payload : PValue)
  | del (resourceId : PValue)
deriving DecidableEq, Repr

/- Outcome of one local_peripheral_save attempt: success, a failure that
   still created the file with some residual content, or a failure before
   the file was created. The message is the exception text. -/
inductive SaveOutcome where
  | ok
  | failFilePresent (msg : String) (residue : FileContent)
  | failNoFile (msg : String)

/- The external collaborators of AgentApi: the shared NuvlaBoxCommon
   context (device id, the resolved default version) and the behaviour of
   the remote API and of the local save for this request. -/
structure World where
  nuvlaboxId : PValue
  defaultVersion : PValue
  addResult : PValue → RemoteOutcome
  deleteResult : PValue → RemoteOutcome
  saveResult : SaveOutcome

/- The observable outcome of one AgentApi operation: the returned
   (message, status) pair or an uncaught exception, the resulting
   .peripherals directory, and the remote calls performed, in order. -/
structure ApiResult where
  resp : Except String (PValue × PValue)
  store : LocalStore
  calls : List RemoteCall

/- local_peripheral_get_identifier: read the file, parse it and return its
   id field; on any failure return None. -/
def localGetId : FileContent → PValue
  | .record v => (objLookup v "id").getD .null
  | _ => .null

/- Lines 88 to 102 of AgentApi.post: default the parent to the NuvlaBox id
   and the version to the resolved default when absent. The version
   resolution chain (context file, docker label, literal 1) is an external
   lookup, modelled by the already resolved World.defaultVersion. -/
def completePayload (w : World) (payload : PValue) : PValue :=
  let p1 := if (objLookup payload "parent").isSome then payload
            else objSet payload "parent" w.nuvlaboxId
  if (objLookup p1 "version").isSome then p1
  else objSet p1 "version" w.defaultVersion

/- AgentApi.delete, lines 128 to 180. The rid0 argument models the
   optional peripheral_nuvla_id keyword, with PValue.null as the Python
   None default; Python tests it with truthiness. In the branch without a
   local file only NuvlaError is caught around the remote delete, so any
   other exception propagates; in the branch with a local file a broad
   except Exception handler returns a 500. os.remove itself is assumed to
   succeed. -/
def delete (w : World) (store : LocalStore) (peripheral_identifier : PValue)
    (rid0 : PValue) : ApiResult :=
  let peripheral_filepath := pyStr peripheral_identifier
  match storeLookup store peripheral_filepath with
  | none =>
    if pyTruthy rid0 then
      match w.deleteResult rid0 with
      | .ok data =>
        match objLookup data "status" with
        | some s => ApiResult.mk (.ok (data, s)) store [.del rid0]
        | none => ApiResult.mk (.error "KeyError") store [.del rid0]
      | .nuvlaError sc body =>
        ApiResult.mk (.ok (body, .pint sc)) store [.del rid0]
      | .exc m => ApiResult.mk (.error m) store [.del rid0]
    else
      ApiResult.mk (.ok (errBody "Peripheral not found", .pint 404)) store []
  | some content =>
    let peripheral_nuvla_id :=
      if pyTruthy rid0 then rid0 else localGetId content
    if pyTruthy peripheral_nuvla_id then
      match w.deleteResult peripheral_nuvla_id with
      | .ok data =>
        let store1 := storeRemove store peripheral_filepath
        match objLookup data "status" with
        | some s =>
          ApiResult.mk (.ok (data, s)) store1 [.del peripheral_nuvla_id]
        | none =>
          ApiResult.mk (.ok (errBody ("Error occurred while deleting " ++
            pyStr peripheral_identifier ++ ": KeyError"), .pint 500)) store1
            [.del peripheral_nuvla_id]
      | .nuvlaError sc body =>
        if sc ≠ 404 then
          ApiResult.mk (.ok (body, .pint sc)) store [.del peripheral_nuvla_id]
        else
          ApiResult.mk (.ok (msgBody ("Deleted " ++
            pyStr peripheral_identifier), .pint 200))
            (storeRemove store peripheral_filepath) [.del peripheral_nuvla_id]
      | .exc m =>
        ApiResult.mk (.ok (errBody ("Error occurred while deleting " ++
          pyStr peripheral_identifier ++ ": " ++ m), .pint 500)) store
          [.del peripheral_nuvla_id]
    else
      ApiResult.mk (.ok (msgBody ("Deleted " ++ pyStr peripheral_identifier),
        .pint 200)) (storeRemove store peripheral_filepath) []

/- AgentApi.post, lines 63 to 125. After a successful remote create, the
   assigned resource id is stored into the payload; a failure of the local
   save triggers a compensating delete with that id and the function then
   returns a 500, unless the compensating delete itself raises, in which
   case the exception propagates out of the except handler. -/
def post (w : World) (store : LocalStore) (payload : PValue) : ApiResult :=
  if ¬ (pyTruthy payload && isObj payload) then
    ApiResult.mk (.ok (errBody ("Payload " ++ pyStr payload ++
      " malformed. It must be a JSON payload"), .pint 400)) store []
  else
    match objLookup payload "identifier" with
    | none =>
      ApiResult.mk (.ok (errBody ("Payload " ++ pyStr payload ++
        " is incomplete. Missing identifier."), .pint 400)) store []
    | some peripheral_identifier =>
      let peripheral_filepath := pyStr peripheral_identifier
      if (storeLookup store peripheral_filepath).isSome then
        ApiResult.mk (.ok (errBody ("Peripheral " ++
          pyStr peripheral_identifier ++
          " file already registered. Please delete it first"), .pint 400))
          store []
      else
        let payload1 := completePayload w payload
        match w.addResult payload1 with
        | .nuvlaError sc body =>
          ApiResult.mk (.ok (body, .pint sc)) store [.add payload1]
        | .exc m =>
          ApiResult.mk (.ok (errBody ("Unable to complete POST request: " ++
            m), .pint 500)) store [.add payload1]
        | .ok data =>
          match objLookup data "resource-id" with
          | none => ApiResult.mk (.error "KeyError") store [.add payload1]
          | some rid =>
            let payload2 := objSet payload1 "id" rid
            match w.saveResult with
            | .ok =>
              let store1 :=
                storeSet store peripheral_filepath (.record payload2)
              match objLookup data "status" with
              | none => ApiResult.mk (.error "KeyError") store1 [.add payload1]
              | some s => ApiResult.mk (.ok (data, s)) store1 [.add payload1]
            | .failFilePresent m residue =>
              let store1 := storeSet store peripheral_filepath residue
              let d := delete w store1 peripheral_identifier rid
              ApiResult.mk
                (match d.resp with
                 | .error e => .error e
                 | .ok _ => .ok (errBody ("Unable to fulfill request: " ++ m),
                     .pint 500))
                d.store (.add payload1 :: d.calls)
            | .failNoFile m =>
              let d := delete w store peripheral_identifier rid
              ApiResult.mk
                (match d.resp with
                 | .error e => .error e
                 | .ok _ => .ok (errBody ("Unable to fulfill request: " ++ m),
                     .pint 500))
                d.store (.add payload1 :: d.calls)

/- Truthiness of an optional request string: None and the empty string are
   falsy. -/
def strTruthy : Option String → Bool
  | none => false
  | some s => s != ""

/- Substring membership, the Python test p in s on strings. splitOn yields
   a single piece exactly when the separator does not occur; p is non empty
   on every reachable call since the filters are truthy there. -/
def pyInStr (p s : String) : Bool := (s.splitOn p).length != 1

/- The loop body of AgentApi.find over the files matched by glob. The open
   call sits outside the try block, so only json.loads failures are
   skipped; an unreadable file raises out of the whole call. The membership
   test at line 205, parameter in content and content of parameter equal to
   value, also sits outside the try, so its Python semantics per content
   type matters: on a dict it is key membership then key access; on a list
   it is element membership, and when an element equals the parameter
   string the subsequent string indexing of the list raises TypeError; on a
   string it is a substring test, and on a hit the string indexing raises
   TypeError; on any other decoded value the membership test itself raises
   TypeError (argument not iterable). When parameter and value are not both
   given, every matched file name is collected without opening the file. -/
def findGo (parameter value : Option String) :
    List (String × FileContent) → Except String (List String)
  | [] => .ok []
  | (name, content) :: rest =>
    if strTruthy parameter && strTruthy value then
      match content with
      | .unreadable => .error "IOError"
      | .corrupt _ => findGo parameter value rest
      | .record v =>
        match v with
        | .onil | .ofield _ _ _ =>
          match objLookup v (parameter.getD "") with
          | some cv =>
            if cv = .pstr (value.getD "") then
              (findGo parameter value rest).map (fun l => name :: l)
            else findGo parameter value rest
          | none => findGo parameter value rest
        | .anil | .acons _ _ =>
          if (arrToList v).any
              (fun e => decide (e = .pstr (parameter.getD ""))) then
            .error "TypeError"
          else findGo parameter value rest
        | .pstr s =>
          if pyInStr (parameter.getD "") s then .error "TypeError"
          else findGo parameter value rest
        | .null | .pbool _ | .pint _ => .error "TypeError"
    else
      (findGo parameter value rest).map (fun l => name :: l)

/- AgentApi.find, lines 183 to 210: purely local. glob over the directory
   restricted by the identifier pattern (modelled as a predicate on file
   names; absent means every file), then the per file filter. The function
   never touches the Nuvla API, hence the empty remote call list. -/
def findFiles (store : LocalStore)
    (identifier_pattern : Option (String → Bool)) : LocalStore :=
  match identifier_pattern with
  | some pat => store.filter (fun e => pat e.1)
  | none => store

def find (store : LocalStore) (parameter value : Option String)
    (identifier_pattern : Option (String → Bool)) : ApiResult :=
  let files := findFiles store identifier_pattern
  match findGo parameter value files with
  | .error e => ApiResult.mk (.error e) store []
  | .ok matched_peripherals =>
    ApiResult.mk (.ok (arrOfList (matched_peripherals.map PValue.pstr),
      .pint 200)) store []

/- A successful key lookup forces the value to be a non empty object, hence
   truthy. -/
theorem objLookup_some_obj {v : PValue} {k : String} {x : PValue}
    (h : objLookup v k = some x) : isObj v = true ∧ pyTruthy v = true := by
  cases v <;> first | exact ⟨rfl, rfl⟩ | simp [objLookup] at h

/- Dict assignment makes the assigned key readable on well formed object
   chains. -/
theorem objLookup_objSet_self {o : PValue} (hc : isObjChain o = true)
    (k : String) (v : PValue) : objLookup (objSet o k v) k = some v := by
  induction o with
  | ofield k0 v0 rest ih1 ih2 =>
    by_cases he : k0 = k
    · subst he; simp [objSet, objLookup]
    · simp only [isObjChain] at hc
      simp [objSet, objLookup, he, ih2 hc]
  | onil => simp [objSet, objLookup]
  | null => simp [isObjChain] at hc
  | pbool b => simp [isObjChain] at hc
  | pint n => simp [isObjChain] at hc
  | pstr s => simp [isObjChain] at hc
  | anil => simp [isObjChain] at hc
  | acons h t ih1 ih2 => simp [isObjChain] at hc

/- Dict assignment preserves well formed object chains. -/
theorem isObjChain_objSet {o : PValue} (hc : isObjChain o = true)
    (k : String) (v : PValue) : isObjChain (objSet o k v) = true := by
  induction o with
  | ofield k0 v0 rest ih1 ih2 =>
    by_cases he : k0 = k
    · subst he; simpa [objSet, isObjChain] using hc
    · simp only [isObjChain] at hc
      simp [objSet, isObjChain, he, ih2 hc]
  | onil => simp [objSet, isObjChain]
  | null => simp [isObjChain] at hc
  | pbool b => simp [isObjChain] at hc
  | pint n => simp [isObjChain] at hc
  | pstr s => simp [isObjChain] at hc
  | anil => simp [isObjChain] at hc
  | acons h t ih1 ih2 => simp [isObjChain] at hc

/- Completing the payload preserves well formed object chains. -/
theorem isObjChain_completePayload {p : PValue} (hc : isObjChain p = true)
    (w : World) : isObjChain (completePayload w p) = true := by
  unfold completePayload
  by_cases h1 : (objLookup p "parent").isSome
  · simp only [h1, if_true]
    by_cases h2 : (objLookup p "version").isSome
    · simpa [h2]
    · simp [h2, isObjChain_objSet hc]
  · simp only [h1, if_false, Bool.false_eq_true]
    have hc1 := isObjChain_objSet hc "parent" w.nuvlaboxId
    by_cases h2 : (objLookup (objSet p "parent" w.nuvlaboxId) "version").isSome
    · simpa [h2]
    · simp [h2, isObjChain_objSet hc1]

/- A freshly written file is found by lookup. -/
theorem storeLookup_storeSet_self (s : LocalStore) (n : String)
    (c : FileContent) : storeLookup (storeSet s n c) n = some c := by
  induction s with
  | nil => simp [storeSet, storeLookup]
  | cons e t ih =>
    obtain ⟨n0, c0⟩ := e
    by_cases he : n0 = n
    · subst he; simp [storeSet, storeLookup]
    · simp [storeSet, storeLookup, he, ih]

/- A removed file is no longer found. -/
theorem storeLookup_storeRemove_self (s : LocalStore) (n : String) :
    storeLookup (storeRemove s n) n = none := by
  induction s with
  | nil => simp [storeRemove, storeLookup]
  | cons e t ih =>
    obtain ⟨n0, c0⟩ := e
    by_cases he : n0 = n
    · subst he; simpa [storeRemove, List.filter_cons] using ih
    · simpa [storeRemove, List.filter_cons, he, storeLookup] using ih

/-- Claim C5: for delete on an identifier whose local record exists and
whose Nuvla id (read from the record file) is truthy: a remote delete
answering NuvlaError 404 still removes the local record and reports success
with status 200 (idempotent delete); any other structured remote error
keeps the local record unchanged and surfaces the remote status and body;
a transport level exception keeps the local record unchanged and surfaces
a 500 error. Exactly one remote delete call is made in each case. -/
theorem claim_C5_delete (w : World) (store : LocalStore) (pid : PValue)
    (content : FileContent) (rid : PValue)
    (hlook : storeLookup store (pyStr pid) = some content)
    (hres : localGetId content = rid)
    (htr : pyTruthy rid = true) :
    (∀ body, w.deleteResult rid = .nuvlaError 404 body →
      delete w store pid .null =
        ApiResult.mk (.ok (msgBody ("Deleted " ++ pyStr pid), .pint 200))
          (storeRemove store (pyStr pid)) [.del rid]) ∧
    (∀ sc body, w.deleteResult rid = .nuvlaError sc body → sc ≠ 404 →
      delete w store pid .null =
        ApiResult.mk (.ok (body, .pint sc)) store [.del rid]) ∧
    (∀ m, w.deleteResult rid = .exc m →
      delete w store pid .null =
        ApiResult.mk (.ok (errBody ("Error occurred while deleting " ++
          pyStr pid ++ ": " ++ m), .pint 500)) store [.del rid]) := by
  have hnull : pyTruthy PValue.null = false := rfl
  refine ⟨?_, ?_, ?_⟩
  · intro body hdel
    simp [delete, hlook, hres, htr, hdel, hnull]
  · intro sc body hdel hsc
    simp [delete, hlook, hres, htr, hdel, hsc, hnull]
  · intro m hdel
    simp [delete, hlook, hres, htr, hdel, hnull]

/- Concrete witness data for C5: the 404 branch of the idempotent delete. -/
def c5content : FileContent :=
  .record (.ofield "id" (.pstr "nuvlabox-peripheral/1")
    (.ofield "identifier" (.pstr "usb1") .onil))

def c5w : World :=
  { nuvlaboxId := .pstr "nuvlabox/1"
    defaultVersion := .pint 1
    addResult := fun _ => .exc "unused"
    deleteResult := fun _ => .nuvlaError 404 (errBody "resource not found")
    saveResult := .ok }

theorem claim_C5_witness :
    storeLookup [("usb1", c5content)] (pyStr (.pstr "usb1")) = some c5content ∧
    localGetId c5content = .pstr "nuvlabox-peripheral/1" ∧
    pyTruthy (.pstr "nuvlabox-peripheral/1") = true ∧
    delete c5w [("usb1", c5content)] (.pstr "usb1") .null =
      ApiResult.mk (.ok (msgBody "Deleted usb1", .pint 200)) []
        [.del (.pstr "nuvlabox-peripheral/1")] := by
  refine ⟨rfl, rfl, rfl, ?_⟩
  have h := (claim_C5_delete c5w [("usb1", c5content)] (.pstr "usb1")
    c5content (.pstr "nuvlabox-peripheral/1") rfl rfl rfl).1
    (errBody "resource not found") rfl
  simpa using h

/-- Claim C6: after a first successful create of a payload, a second create
with the same identifier returns the already registered conflict error with
status 400, leaves the store unchanged and performs no remote call at all,
whatever the remote behaviour of the second request would be. -/
theorem claim_C6_duplicate_create (w : World) (store : LocalStore)
    (payload pid data rid s : PValue)
    (hid : objLookup payload "identifier" = some pid)
    (hnew : storeLookup store (pyStr pid) = none)
    (hadd : w.addResult (completePayload w payload) = .ok data)
    (hrid : objLookup data "resource-id" = some rid)
    (hsave : w.saveResult = .ok)
    (hst : objLookup data "status" = some s) :
    (post w store payload).resp = .ok (data, s) ∧
    ∀ w2 : World, post w2 (post w store payload).store payload =
      ApiResult.mk (.ok (errBody ("Peripheral " ++ pyStr pid ++
        " file already registered. Please delete it first"), .pint 400))
        (post w store payload).store [] := by
  obtain ⟨hobj, htruthy⟩ := objLookup_some_obj hid
  have hposteq : post w store payload =
      ApiResult.mk (.ok (data, s))
        (storeSet store (pyStr pid)
          (.record (objSet (completePayload w payload) "id" rid)))
        [.add (completePayload w payload)] := by
    simp [post, htruthy, hobj, hid, hnew, hadd, hrid, hsave, hst]
  constructor
  · rw [hposteq]
  · intro w2
    rw [hposteq]
    simp [post, htruthy, hobj, hid, storeLookup_storeSet_self]

/- Concrete witness data for C6. -/
def c6payload : PValue := .ofield "identifier" (.pstr "usb1") .onil

def c6data : PValue :=
  .ofield "resource-id" (.pstr "nuvlabox-peripheral/1")
    (.ofield "status" (.pint 201) .onil)

def c6w : World :=
  { nuvlaboxId := .pstr "nuvlabox/1"
    defaultVersion := .pint 1
    addResult := fun _ => .ok c6data
    deleteResult := fun _ => .exc "unused"
    saveResult := .ok }

theorem claim_C6_witness :
    objLookup c6payload "identifier" = some (.pstr "usb1") ∧
    storeLookup [] (pyStr (.pstr "usb1")) = none ∧
    c6w.addResult (completePayload c6w c6payload) = .ok c6data ∧
    (post c6w [] c6payload).resp = .ok (c6data, .pint 201) ∧
    ∀ w2 : World, post w2 (post c6w [] c6payload).store c6payload =
      ApiResult.mk (.ok (errBody ("Peripheral usb1 file already " ++
        "registered. Please delete it first"), .pint 400))
        (post c6w [] c6payload).store [] := by
  have h := claim_C6_duplicate_create c6w [] c6payload (.pstr "usb1") c6data
    (.pstr "nuvlabox-peripheral/1") (.pint 201) rfl rfl rfl rfl rfl rfl
  exact ⟨rfl, rfl, rfl, h.1, h.2⟩

/- Concrete data for the C4 counterexample: the remote create succeeds, the
   local save fails before the file is created, and the compensating remote
   delete fails with a transport level exception. -/
def c4payload : PValue := .ofield "identifier" (.pstr "usb1") .onil

def c4data : PValue :=
  .ofield "resource-id" (.pstr "nuvlabox-peripheral/1")
    (.ofield "status" (.pint 201) .onil)

def c4w : World :=
  { nuvlaboxId := .pstr "nuvlabox/1"
    defaultVersion := .pint 1
    addResult := fun _ => .ok c4data
    deleteResult := fun _ => .exc "connection timed out"
    saveResult := .failNoFile "read-only file system" }

/-- Claim C4 counterexample: with a successful remote create, a local save
failing before the file exists, and a compensating remote delete raising a
transport level exception, post performs the single compensating delete but
then propagates the delete exception to the caller instead of surfacing the
persistence failure: the branch without a local file only catches
NuvlaError, so the claim that a failure of the compensating delete is only
logged and never re-raised is false. -/
theorem claim_C4_cex :
    (post c4w [] c4payload).resp = Except.error "connection timed out" ∧
    (post c4w [] c4payload).calls =
      [.add (completePayload c4w c4payload),
       .del (.pstr "nuvlabox-peripheral/1")] ∧
    ∀ r, (post c4w [] c4payload).resp ≠ Except.ok r := by
  refine ⟨rfl, rfl, ?_⟩
  intro r hr
  rw [show (post c4w [] c4payload).resp =
    Except.error "connection timed out" from rfl] at hr
  exact Except.noConfusion hr

/-- Claim C4 amended: when local persistence fails after a successful remote
create, exactly one compensating remote delete is issued for the remote id
assigned by that create; the persistence error is surfaced to the caller as
a 500 whenever the compensating delete returns or fails with a structured
NuvlaError, and also on a transport level failure when the failed save had
left a partial file behind (the broad handler of the file branch catches
it); but when the failed save left no local file, a transport level failure
of the compensating delete propagates to the caller in place of the
persistence error. -/
theorem claim_C4_amended (w : World) (store : LocalStore)
    (payload pid data rid : PValue) (m : String)
    (hid : objLookup payload "identifier" = some pid)
    (hnew : storeLookup store (pyStr pid) = none)
    (hadd : w.addResult (completePayload w payload) = .ok data)
    (hrid : objLookup data "resource-id" = some rid)
    (htr : pyTruthy rid = true)
    (hsave : w.saveResult = .failNoFile m ∨
      ∃ residue, w.saveResult = .failFilePresent m residue) :
    (post w store payload).calls =
      [.add (completePayload w payload), .del rid] ∧
    (∀ sc body, w.deleteResult rid = .nuvlaError sc body →
      (post w store payload).resp =
        .ok (errBody ("Unable to fulfill request: " ++ m), .pint 500)) ∧
    (∀ d2 s2, w.deleteResult rid = .ok d2 → objLookup d2 "status" = some s2 →
      (post w store payload).resp =
        .ok (errBody ("Unable to fulfill request: " ++ m), .pint 500)) ∧
    (∀ m2, w.deleteResult rid = .exc m2 →
      (w.saveResult = .failNoFile m →
        (post w store payload).resp = .error m2) ∧
      (∀ residue, w.saveResult = .failFilePresent m residue →
        (post w store payload).resp =
          .ok (errBody ("Unable to fulfill request: " ++ m), .pint 500))) := by
  obtain ⟨hobj, htruthy⟩ := objLookup_some_obj hid
  rcases hsave with hnf | ⟨residue, hfp⟩
  · refine ⟨?_, ?_, ?_, ?_⟩
    · cases hdel : w.deleteResult rid with
      | ok d2 =>
        cases hs2 : objLookup d2 "status" <;>
          simp [post, delete, htruthy, hobj, hid, hnew, hadd, hrid, hnf,
            htr, hdel, hs2]
      | nuvlaError sc body =>
        simp [post, delete, htruthy, hobj, hid, hnew, hadd, hrid, hnf,
          htr, hdel]
      | exc m2 =>
        simp [post, delete, htruthy, hobj, hid, hnew, hadd, hrid, hnf,
          htr, hdel]
    · intro sc body hdel
      simp [post, delete, htruthy, hobj, hid, hnew, hadd, hrid, hnf, htr,
        hdel]
    · intro d2 s2 hdel hs2
      simp [post, delete, htruthy, hobj, hid, hnew, hadd, hrid, hnf, htr,
        hdel, hs2]
    · intro m2 hdel
      refine ⟨?_, ?_⟩
      · intro _
        simp [post, delete, htruthy, hobj, hid, hnew, hadd, hrid, hnf, htr,
          hdel]
      · intro residue hfp
        rw [hnf] at hfp
        exact SaveOutcome.noConfusion hfp
  · refine ⟨?_, ?_, ?_, ?_⟩
    · cases hdel : w.deleteResult rid with
      | ok d2 =>
        cases hs2 : objLookup d2 "status" <;>
          simp [post, delete, htruthy, hobj, hid, hnew, hadd, hrid, hfp,
            htr, hdel, hs2, storeLookup_storeSet_self]
      | nuvlaError sc body =>
        by_cases hsc : sc = 404 <;>
          simp [post, delete, htruthy, hobj, hid, hnew, hadd, hrid, hfp,
            htr, hdel, hsc, storeLookup_storeSet_self]
      | exc m2 =>
        simp [post, delete, htruthy, hobj, hid, hnew, hadd, hrid, hfp, htr,
          hdel, storeLookup_storeSet_self]
    · intro sc body hdel
      by_cases hsc : sc = 404 <;>
        simp [post, delete, htruthy, hobj, hid, hnew, hadd, hrid, hfp, htr,
          hdel, hsc, storeLookup_storeSet_self]
    · intro d2 s2 hdel hs2
      simp [post, delete, htruthy, hobj, hid, hnew, hadd, hrid, hfp, htr,
        hdel, hs2, storeLookup_storeSet_self]
    · intro m2 hdel
      refine ⟨?_, ?_⟩
      · intro hnf
        rw [hfp] at hnf
        exact SaveOutcome.noConfusion hnf
      · intro residue2 _
        simp [post, delete, htruthy, hobj, hid, hnew, hadd, hrid, hfp, htr,
          hdel, storeLookup_storeSet_self]

/- Concrete witness data for the amended C4: save failure before the file
   exists, compensating delete answered with a structured 409. -/
def c4wins : World :=
  { nuvlaboxId := .pstr "nuvlabox/1"
    defaultVersion := .pint 1
    addResult := fun _ => .ok c4data
    deleteResult := fun _ => .nuvlaError 409 (errBody "conflict")
    saveResult := .failNoFile "disk full" }

theorem claim_C4_witness :
    objLookup c4payload "identifier" = some (.pstr "usb1") ∧
    c4wins.addResult (completePayload c4wins c4payload) = .ok c4data ∧
    (post c4wins [] c4payload).calls =
      [.add (completePayload c4wins c4payload),
       .del (.pstr "nuvlabox-peripheral/1")] ∧
    (post c4wins [] c4payload).resp =
      .ok (errBody "Unable to fulfill request: disk full", .pint 500) := by
  have h := claim_C4_amended c4wins [] c4payload (.pstr "usb1") c4data
    (.pstr "nuvlabox-peripheral/1") "disk full" rfl rfl rfl rfl rfl
    (Or.inl rfl)
  exact ⟨rfl, rfl, h.1, h.2.1 409 (errBody "conflict") rfl⟩

/-- Claim C8: for a valid payload whose identifier has no local record, a
successful create followed by delete of that identifier leaves no local
record for it; the create performs only the remote add, and the delete
performs exactly one remote delete, targeting precisely the resource id the
create assigned (read back from the saved record file), and reports the
remote response. -/
theorem claim_C8_create_delete (w : World) (store : LocalStore)
    (payload pid data rid s d2 s2 : PValue)
    (hchain : isObjChain payload = true)
    (hid : objLookup payload "identifier" = some pid)
    (hnew : storeLookup store (pyStr pid) = none)
    (hadd : w.addResult (completePayload w payload) = .ok data)
    (hrid : objLookup data "resource-id" = some rid)
    (htr : pyTruthy rid = true)
    (hst : objLookup data "status" = some s)
    (hsave : w.saveResult = .ok)
    (hdel : w.deleteResult rid = .ok d2)
    (hs2 : objLookup d2 "status" = some s2) :
    (post w store payload).resp = .ok (data, s) ∧
    (post w store payload).calls = [.add (completePayload w payload)] ∧
    (delete w (post w store payload).store pid .null).resp = .ok (d2, s2) ∧
    (delete w (post w store payload).store pid .null).calls = [.del rid] ∧
    storeLookup (delete w (post w store payload).store pid .null).store
      (pyStr pid) = none := by
  obtain ⟨hobj, htruthy⟩ := objLookup_some_obj hid
  have hnull : pyTruthy PValue.null = false := rfl
  have hchain1 : isObjChain (completePayload w payload) = true :=
    isObjChain_completePayload hchain w
  have hlocal : localGetId
      (.record (objSet (completePayload w payload) "id" rid)) = rid := by
    simp [localGetId, objLookup_objSet_self hchain1]
  have hposteq : post w store payload =
      ApiResult.mk (.ok (data, s))
        (storeSet store (pyStr pid)
          (.record (objSet (completePayload w payload) "id" rid)))
        [.add (completePayload w payload)] := by
    simp [post, htruthy, hobj, hid, hnew, hadd, hrid, hsave, hst]
  rw [hposteq]
  have hdeleq : delete w
      (storeSet store (pyStr pid)
        (.record (objSet (completePayload w payload) "id" rid))) pid .null =
      ApiResult.mk (.ok (d2, s2))
        (storeRemove
          (storeSet store (pyStr pid)
            (.record (objSet (completePayload w payload) "id" rid)))
          (pyStr pid)) [.del rid] := by
    simp [delete, storeLookup_storeSet_self, hlocal, hnull, htr, hdel, hs2]
  rw [hdeleq]
  exact ⟨rfl, rfl, rfl, rfl, storeLookup_storeRemove_self _ _⟩

/- Concrete witness data for C8. -/
def c8payload : PValue := .ofield "identifier" (.pstr "gpu0" ) .onil

def c8data : PValue :=
  .ofield "resource-id" (.pstr "nuvlabox-peripheral/8")
    (.ofield "status" (.pint 201) .onil)

def c8deldata : PValue := .ofield "status" (.pint 200) .onil

def c8w : World :=
  { nuvlaboxId := .pstr "nuvlabox/1"
    defaultVersion := .pint 2
    addResult := fun _ => .ok c8data
    deleteResult := fun _ => .ok c8deldata
    saveResult := .ok }

theorem claim_C8_witness :
    isObjChain c8payload = true ∧
    objLookup c8payload "identifier" = some (.pstr "gpu0") ∧
    (post c8w [] c8payload).resp = .ok (c8data, .pint 201) ∧
    (post c8w [] c8payload).calls = [.add (completePayload c8w c8payload)] ∧
    (delete c8w (post c8w [] c8payload).store (.pstr "gpu0") .null).resp =
      .ok (c8deldata, .pint 200) ∧
    (delete c8w (post c8w [] c8payload).store (.pstr "gpu0") .null).calls =
      [.del (.pstr "nuvlabox-peripheral/8")] ∧
    storeLookup
      (delete c8w (post c8w [] c8payload).store (.pstr "gpu0") .null).store
      (pyStr (.pstr "gpu0")) = none := by
  have h := claim_C8_create_delete c8w [] c8payload (.pstr "gpu0") c8data
    (.pstr "nuvlabox-peripheral/8") (.pint 201) c8deldata (.pint 200)
    rfl rfl rfl rfl rfl rfl rfl rfl rfl rfl
  exact ⟨rfl, rfl, h.1, h.2.1, h.2.2.1, h.2.2.2.1, h.2.2.2.2⟩

/- The per file filter of find when both parameter and value are given:
   a readable record whose payload maps parameter to exactly the query
   string contributes its file name. -/
def findMatch (p v : String) (e : String × FileContent) : Option String :=
  match e.2 with
  | .record x => if objLookup x p = some (.pstr v) then some e.1 else none
  | _ => none

/- A record file that find can consider without raising when both filters
   are given: a corrupt file is skipped by the except around json.loads,
   but an unreadable file raises at open, and a record decoding to non
   object JSON raises a TypeError from the membership test or indexing at
   line 205, both outside any try. -/
def findSafe : String × FileContent → Bool
  | (_, .unreadable) => false
  | (_, .corrupt _) => true
  | (_, .record x) => isObj x

/- Closed form of the find loop when both filters are given and every
   considered file is safe: readable, and decoding either fails (skipped)
   or yields an object. -/
theorem findGo_closed (p v : String) (hp : p ≠ "") (hv : v ≠ "") :
    ∀ files : List (String × FileContent),
    (∀ e ∈ files, findSafe e = true) →
    findGo (some p) (some v) files = .ok (files.filterMap (findMatch p v)) := by
  have hsp : strTruthy (some p) = true := by simp [strTruthy, hp]
  have hsv : strTruthy (some v) = true := by simp [strTruthy, hv]
  intro files
  induction files with
  | nil => intro _; simp [findGo]
  | cons e rest ih =>
    intro h
    obtain ⟨name, content⟩ := e
    have hhead := h (name, content) (by simp)
    have hrest : ∀ e ∈ rest, findSafe e = true := by
      intro e he; exact h e (by simp [he])
    cases content with
    | unreadable => simp [findSafe] at hhead
    | corrupt raw =>
      simp [findGo, hsp, hsv, ih hrest, List.filterMap_cons, findMatch,
        Except.map]
    | record x =>
      have hobj : isObj x = true := by simpa [findSafe] using hhead
      have hcases : ∀ hl0 : Option PValue, objLookup x p = hl0 →
          findGo (some p) (some v) ((name, .record x) :: rest) =
            .ok (((name, FileContent.record x) :: rest).filterMap
              (findMatch p v)) := by
        intro hl0 hl
        cases x with
        | onil =>
          cases hl0 with
          | none =>
            simp [findGo, hsp, hsv, hl, ih hrest, List.filterMap_cons,
              findMatch, Except.map]
          | some cv => simp [objLookup] at hl
        | ofield k0 v0 rest0 =>
          cases hl0 with
          | none =>
            simp [findGo, hsp, hsv, hl, ih hrest, List.filterMap_cons,
              findMatch, Except.map]
          | some cv =>
            by_cases he : cv = .pstr v
            · subst he
              simp [findGo, hsp, hsv, hl, ih hrest, List.filterMap_cons,
                findMatch, Except.map]
            · simp [findGo, hsp, hsv, hl, he, ih hrest,
                List.filterMap_cons, findMatch, Except.map]
        | null => simp [isObj] at hobj
        | pbool b => simp [isObj] at hobj
        | pint n => simp [isObj] at hobj
        | pstr s => simp [isObj] at hobj
        | anil => simp [isObj] at hobj
        | acons hd tl => simp [isObj] at hobj
      exact hcases (objLookup x p) rfl

/- Without the parameter and value filters every considered file name is
   collected, without opening any file. -/
theorem findGo_all :
    ∀ files : List (String × FileContent),
    findGo none none files = .ok (files.map Prod.fst) := by
  intro files
  induction files with
  | nil => simp [findGo]
  | cons e rest ih =>
    obtain ⟨name, content⟩ := e
    simp [findGo, strTruthy, ih, Except.map]

/- Concrete stores for the C9 counterexample: one record file whose open
   raises, and one whose content decodes to the JSON number 5. -/
def c9bad : LocalStore := [("usb1", FileContent.unreadable)]

def c9badint : LocalStore := [("usb2", FileContent.record (.pint 5))]

/-- Claim C9 counterexample: with both parameter and value given, a single
unreadable record file makes find raise instead of skipping the file (the
open call sits outside the try block of AgentApi.find), and so does a
readable record file whose content decodes to non object JSON such as the
number 5 (the membership test at line 205 raises TypeError outside the
try); both contradict the claim that unreadable or corrupt record files
are skipped rather than failing the whole call. -/
theorem claim_C9_cex :
    (find c9bad (some "interface") (some "eth0") none).resp =
      Except.error "IOError" ∧
    (find c9badint (some "interface") (some "eth0") none).resp =
      Except.error "TypeError" ∧
    (∀ r, (find c9bad (some "interface") (some "eth0") none).resp ≠
      Except.ok r) ∧
    (∀ r, (find c9badint (some "interface") (some "eth0") none).resp ≠
      Except.ok r) := by
  refine ⟨rfl, rfl, ?_, ?_⟩
  · intro r hr
    rw [show (find c9bad (some "interface") (some "eth0") none).resp =
      Except.error "IOError" from rfl] at hr
    exact Except.noConfusion hr
  · intro r hr
    rw [show (find c9badint (some "interface") (some "eth0") none).resp =
      Except.error "TypeError" from rfl] at hr
    exact Except.noConfusion hr

/-- Claim C9 amended: find performs no remote call and is purely local.
When both parameter and value are given and every record file considered
after the identifier pattern restriction is safe (readable, and decoding
either fails or yields a JSON object), it returns exactly the identifiers
of the pattern matched files whose payload, after skipping corrupt
(undecodable) files, maps parameter to the given value; when parameter and
value are not both given it returns all pattern matched identifiers
without opening any file. However an unreadable record file (open failure)
among the considered files, or one decoding to non object JSON (TypeError
from the untried membership test), makes the whole call fail rather than
being skipped. -/
theorem claim_C9_amended :
    (∀ (store : LocalStore) (p v : String)
      (pat : Option (String → Bool)), p ≠ "" → v ≠ "" →
      (∀ e ∈ findFiles store pat, findSafe e = true) →
      find store (some p) (some v) pat =
        ApiResult.mk
          (.ok (arrOfList (((findFiles store pat).filterMap
            (findMatch p v)).map PValue.pstr), .pint 200)) store []) ∧
    (∀ (store : LocalStore) (pat : Option (String → Bool)),
      find store none none pat =
        ApiResult.mk
          (.ok (arrOfList (((findFiles store pat).map Prod.fst).map
            PValue.pstr), .pint 200)) store []) := by
  constructor
  · intro store p v pat hp hv hread
    have h := findGo_closed p v hp hv (findFiles store pat) hread
    simp [find, h]
  · intro store pat
    have h := findGo_all (findFiles store pat)
    simp [find, h]

/- Concrete witness store for C9: three readable records with interface
   fields eth0, eth1 and eth0. -/
def c9store : LocalStore :=
  [("p1", .record (.ofield "interface" (.pstr "eth0") .onil)),
   ("p2", .record (.ofield "interface" (.pstr "eth1") .onil)),
   ("p3", .record (.ofield "interface" (.pstr "eth0") .onil))]

theorem claim_C9_witness :
    (∀ e ∈ findFiles c9store none, findSafe e = true) ∧
    find c9store (some "interface") (some "eth0") none =
      ApiResult.mk
        (.ok (.acons (.pstr "p1") (.acons (.pstr "p3") .anil), .pint 200))
        c9store [] ∧
    find c9store none none none =
      ApiResult.mk
        (.ok (.acons (.pstr "p1") (.acons (.pstr "p2")
          (.acons (.pstr "p3") .anil)), .pint 200)) c9store [] := by
  have hread : ∀ e ∈ findFiles c9store none, findSafe e = true := by decide
  have h1 := claim_C9_amended.1 c9store "interface" "eth0" none
    (by decide) (by decide) hread
  have h2 := claim_C9_amended.2 c9store none
  exact ⟨hread, h1, h2⟩

/- ---------------------------------------------------------------- -/
/- Pull mode job dispatch and the telemetry loop, src/code/app.py.   -/
/- ---------------------------------------------------------------- -/

/- The external collaborators of the job dispatch block: the truthiness of
   infra.job_engine_lite_image, the Job constructor returning the
   do_nothing flag (or raising) and job.launch. -/
structure JobWorld where
  job_engine_lite_image : Bool
  ctor : PValue → Except String Bool
  launch : PValue → Except String Unit

/- Observable dispatch events, in order: a successful launch, or a launch
   failure caught and logged together with its job id. -/
inductive JobTrace where
  | launched (jobId : PValue)
  | launchFailed (jobId : PValue) (msg : String)
deriving DecidableEq, Repr

/- One iteration of the for loop of app.py lines 217 to 226: the Job
   constructor and the do_nothing check run outside any try block; only the
   job.launch call is wrapped in try/except, whose handler logs the job id
   and the exception. -/
def dispatchJob (w : JobWorld) (job_id : PValue) :
    Except String (List JobTrace) :=
  match w.ctor job_id with
  | .error e => .error e
  | .ok do_nothing =>
    if do_nothing then .ok []
    else
      match w.launch job_id with
      | .ok _ => .ok [.launched job_id]
      | .error m => .ok [.launchFailed job_id m]

def processJobsGo (w : JobWorld) :
    List PValue → Except String (List JobTrace)
  | [] => .ok []
  | j :: rest =>
    match dispatchJob w j with
    | .error e => .error e
    | .ok tr => (processJobsGo w rest).map (fun t => tr ++ t)

/- app.py lines 215 to 226: response.get raises AttributeError unless the
   publish response is a dict; the dispatch loop only runs when the jobs
   entry is a non empty list and the job engine image is truthy. -/
def processJobs (w : JobWorld) (response : PValue) :
    Except String (List JobTrace) :=
  if ¬ isObj response then .error "AttributeError"
  else
    let jobs := pyGet response "jobs"
    if isArr jobs && w.job_engine_lite_image && pyTruthy jobs then
      processJobsGo w (arrToList jobs)
    else .ok []

/- Telemetry.update_status has no return statement, so in the composed
   program the publish response seen by the loop is None and the dispatch
   block raises AttributeError on any cycle that reaches it. -/
theorem processJobs_none_response (w : JobWorld) :
    processJobs w .null = .error "AttributeError" := rfl

/- The trace contribution of one job id whose construction succeeds. -/
def jobTraceOf (w : JobWorld) (j : PValue) : Option JobTrace :=
  match w.ctor j with
  | .error _ => none
  | .ok true => none
  | .ok false =>
    match w.launch j with
    | .ok _ => some (.launched j)
    | .error m => some (.launchFailed j m)

/- Closed form of the dispatch loop when every construction succeeds: the
   jobs are processed strictly in order and each contributes its trace,
   launch failures included. -/
theorem processJobsGo_closed (w : JobWorld) :
    ∀ jobs : List PValue, (∀ j ∈ jobs, ∃ b, w.ctor j = .ok b) →
    processJobsGo w jobs = .ok (jobs.filterMap (jobTraceOf w)) := by
  intro jobs
  induction jobs with
  | nil => intro _; simp [processJobsGo]
  | cons j rest ih =>
    intro h
    obtain ⟨b, hb⟩ := h j (by simp)
    have hrest : ∀ j ∈ rest, ∃ b, w.ctor j = .ok b := by
      intro x hx; exact h x (by simp [hx])
    cases b with
    | true =>
      simp [processJobsGo, dispatchJob, hb, ih hrest, List.filterMap_cons,
        jobTraceOf, Except.map]
    | false =>
      cases hl : w.launch j with
      | ok u =>
        simp [processJobsGo, dispatchJob, hb, hl, ih hrest,
          List.filterMap_cons, jobTraceOf, Except.map]
      | error m =>
        simp [processJobsGo, dispatchJob, hb, hl, ih hrest,
          List.filterMap_cons, jobTraceOf, Except.map]

/- Concrete data for the C3 counterexample: the first job raises while its
   execution context is constructed. -/
def c3w : JobWorld :=
  { job_engine_lite_image := true
    ctor := fun j =>
      if j = .pstr "job/1" then .error "docker error" else .ok false
    launch := fun _ => .ok () }

def c3resp : PValue :=
  .ofield "jobs" (.acons (.pstr "job/1") (.acons (.pstr "job/2") .anil))
    .onil

/-- Claim C3 counterexample: with jobs [job/1, job/2] and a Job constructor
raising for job/1, the dispatch block propagates the construction error and
job/2 is never processed: Job construction and the do_nothing check sit
outside the try block, so an error raised while building the execution
context is not caught, not logged with the job id, and aborts the cycle,
contradicting the claim. -/
theorem claim_C3_cex :
    processJobs c3w c3resp = Except.error "docker error" ∧
    ∀ r, processJobs c3w c3resp ≠ Except.ok r := by
  refine ⟨rfl, ?_⟩
  intro r hr
  rw [show processJobs c3w c3resp = Except.error "docker error" from rfl]
    at hr
  exact Except.noConfusion hr

/-- Claim C3 amended: when the publish response is a dict carrying a non
empty list of job ids, the job engine image is configured and every Job
construction succeeds, the ids are handed over strictly in list order and
each launch error is caught, logged with its job id, and does not stop the
processing of subsequent ids nor abort the cycle; an error raised while
constructing the execution context, however, propagates (counterexample
claim_C3_cex). -/
theorem claim_C3_jobs (w : JobWorld) (response jobsArr : PValue)
    (hobj : isObj response = true)
    (hjobs : objLookup response "jobs" = some jobsArr)
    (harr : isArr jobsArr = true)
    (himg : w.job_engine_lite_image = true)
    (htr : pyTruthy jobsArr = true)
    (hctor : ∀ j ∈ arrToList jobsArr, ∃ b, w.ctor j = .ok b) :
    processJobs w response =
      .ok ((arrToList jobsArr).filterMap (jobTraceOf w)) := by
  simp [processJobs, hobj, pyGet, hjobs, harr, himg, htr,
    processJobsGo_closed w _ hctor]

/- Concrete witness data for C3: four jobs, the second fails to launch, the
   third is a no op; processing continues in order through the fourth. -/
def c3ww : JobWorld :=
  { job_engine_lite_image := true
    ctor := fun j => .ok (decide (j = .pstr "job/skip"))
    launch := fun j =>
      if j = .pstr "job/2" then .error "pull failed" else .ok () }

def c3wjobs : PValue :=
  .acons (.pstr "job/1") (.acons (.pstr "job/2")
    (.acons (.pstr "job/skip") (.acons (.pstr "job/3") .anil)))

def c3wresp : PValue := .ofield "jobs" c3wjobs .onil

theorem claim_C3_witness :
    (∀ j ∈ arrToList c3wjobs, ∃ b, c3ww.ctor j = .ok b) ∧
    processJobs c3ww c3wresp =
      .ok [.launched (.pstr "job/1"),
           .launchFailed (.pstr "job/2") "pull failed",
           .launched (.pstr "job/3")] := by
  have hctor : ∀ j ∈ arrToList c3wjobs, ∃ b, c3ww.ctor j = .ok b := by
    intro j _
    exact ⟨decide (j = .pstr "job/skip"), rfl⟩
  have h := claim_C3_jobs c3ww c3wresp c3wjobs rfl rfl rfl rfl rfl hctor
  exact ⟨hctor, by simpa using h⟩

/- The external collaborators of one telemetry loop cycle, app.py lines
   200 to 228: the configuration fetch get_nuvlabox_info, the document
   persist create_nb_document_file, the VPN credential watch, the result of
   the telemetry.update_status call, the job dispatch collaborators and the
   commissioning check try_commission. Each error models the call
   raising. -/
structure CycleWorld where
  getInfo : Except String PValue
  persistDoc : Except String Unit
  watchVpn : Except String Unit
  updateStatusResult : Except String PValue
  jobW : JobWorld
  tryCommission : Except String Unit

/- The scheduler state across cycles: nuvlabox_info_updated_date and
   refresh_interval. -/
structure SchedState where
  nuvlabox_info_updated_date : PValue
  refresh_interval : PValue
deriving DecidableEq, Repr

/- The steps of one cycle that ran to completion, in program order. -/
inductive StepTag where
  | infoFetched
  | configChecked
  | vpnChecked
  | statusPublished
  | jobsHandled
  | commissionRun
deriving DecidableEq, Repr

/- One iteration of the while True telemetry loop, app.py lines 200 to 228
   (the timing arithmetic of lines 230 to 235 is modelled separately by
   next_cycle_in and eventWaitSleep). The loop body has no try/except
   around the configuration fetch, the VPN watch, the status publish or the
   commissioning check; only job.launch inside the dispatch block is
   guarded. An error result models an exception propagating out of the loop
   body, which terminates the while loop and the process; the tag list
   records which steps completed before that. -/
def telemetryCycle (w : CycleWorld) (st : SchedState) :
    Except String SchedState × List StepTag :=
  match w.getInfo with
  | .error e => (.error e, [])
  | .ok nuvlabox_resource =>
    let step2 : Except String SchedState :=
      match objLookup nuvlabox_resource "updated" with
      | none => .error "KeyError"
      | some updated =>
        if st.nuvlabox_info_updated_date ≠ updated then
          match objLookup nuvlabox_resource "refresh-interval" with
          | none => .error "KeyError"
          | some ri =>
            match w.persistDoc with
            | .error e => .error e
            | .ok _ => .ok (SchedState.mk updated ri)
        else .ok st
    match step2 with
    | .error e => (.error e, [.infoFetched])
    | .ok st1 =>
      let vpnStep : Except String Unit :=
        if pyTruthy (pyGet nuvlabox_resource "vpn-server-id") then
          w.watchVpn
        else .ok ()
      match vpnStep with
      | .error e => (.error e, [.infoFetched, .configChecked])
      | .ok _ =>
        match w.updateStatusResult with
        | .error e =>
          (.error e, [.infoFetched, .configChecked, .vpnChecked])
        | .ok response =>
          match processJobs w.jobW response with
          | .error e =>
            (.error e, [.infoFetched, .configChecked, .vpnChecked,
              .statusPublished])
          | .ok _trace =>
            match w.tryCommission with
            | .error e =>
              (.error e, [.infoFetched, .configChecked, .vpnChecked,
                .statusPublished, .jobsHandled])
            | .ok _ =>
              (.ok st1, [.infoFetched, .configChecked, .vpnChecked,
                .statusPublished, .jobsHandled, .commissionRun])

/- Concrete data for the C2 counterexample: a cycle whose status publish
   raises a connection error. -/
def c2res : PValue := .ofield "updated" (.pstr "2020-01-01") .onil

def c2jobw : JobWorld :=
  { job_engine_lite_image := false
    ctor := fun _ => .ok true
    launch := fun _ => .ok () }

def c2w : CycleWorld :=
  { getInfo := .ok c2res
    persistDoc := .ok ()
    watchVpn := .ok ()
    updateStatusResult := .error "ConnectionError"
    jobW := c2jobw
    tryCommission := .ok () }

def c2st : SchedState :=
  { nuvlabox_info_updated_date := .pstr "2020-01-01"
    refresh_interval := .pint 5 }

/-- Claim C2 counterexample: a cycle in which the status publish (step 4)
raises makes the whole loop body raise: the remaining steps of the cycle
never run (in particular the commissioning check) and the while loop
terminates, contradicting the claim that a failure in any of steps 2 to 6
is caught at that step and later steps and cycles still run. -/
theorem claim_C2_cex :
    telemetryCycle c2w c2st =
      (.error "ConnectionError",
       [.infoFetched, .configChecked, .vpnChecked]) ∧
    StepTag.commissionRun ∉ (telemetryCycle c2w c2st).2 := by
  have h : telemetryCycle c2w c2st =
      (.error "ConnectionError",
       [.infoFetched, .configChecked, .vpnChecked]) := rfl
  refine ⟨h, ?_⟩
  rw [h]
  decide

/-- Claim C2 amended: the loop body guards only job.launch inside step 5:
an error raised by the status publish propagates, skips the remaining steps
of the cycle and terminates the loop, and so does an error raised by the
commissioning check; whereas when steps 2 to 4 succeed and the dispatch
block completes (launch failures being caught per job), the commissioning
check runs and the cycle ends normally, so the loop continues. -/
theorem claim_C2_loop (w : CycleWorld) (st : SchedState) (res : PValue)
    (hget : w.getInfo = .ok res)
    (hupd : objLookup res "updated" = some st.nuvlabox_info_updated_date)
    (hvpn : pyTruthy (pyGet res "vpn-server-id") = false) :
    (∀ e, w.updateStatusResult = .error e →
      telemetryCycle w st =
        (.error e, [.infoFetched, .configChecked, .vpnChecked]) ∧
      StepTag.commissionRun ∉ (telemetryCycle w st).2) ∧
    (∀ e response tr, w.tryCommission = .error e →
      w.updateStatusResult = .ok response →
      processJobs w.jobW response = .ok tr →
      telemetryCycle w st =
        (.error e, [.infoFetched, .configChecked, .vpnChecked,
          .statusPublished, .jobsHandled])) ∧
    (∀ response tr, w.updateStatusResult = .ok response →
      processJobs w.jobW response = .ok tr →
      w.tryCommission = .ok () →
      telemetryCycle w st =
        (.ok st, [.infoFetched, .configChecked, .vpnChecked,
          .statusPublished, .jobsHandled, .commissionRun])) := by
  refine ⟨?_, ?_, ?_⟩
  · intro e hus
    have h : telemetryCycle w st =
        (.error e, [.infoFetched, .configChecked, .vpnChecked]) := by
      simp [telemetryCycle, hget, hupd, hvpn, hus]
    refine ⟨h, ?_⟩
    rw [h]
    simp
  · intro e response tr hc hus hj
    simp [telemetryCycle, hget, hupd, hvpn, hus, hj, hc]
  · intro response tr hus hj hc
    simp [telemetryCycle, hget, hupd, hvpn, hus, hj, hc]

/- Concrete witness data for the amended C2: a cycle whose only failure is
   one job launch; the commissioning check still runs and the cycle ends
   normally. -/
def c2wres : PValue := .ofield "updated" (.pstr "2021-05-05") .onil

def c2wresp : PValue :=
  .ofield "jobs" (.acons (.pstr "job/9") .anil) .onil

def c2wjobw : JobWorld :=
  { job_engine_lite_image := true
    ctor := fun _ => .ok false
    launch := fun _ => .error "launch broke" }

def c2ww : CycleWorld :=
  { getInfo := .ok c2wres
    persistDoc := .ok ()
    watchVpn := .ok ()
    updateStatusResult := .ok c2wresp
    jobW := c2wjobw
    tryCommission := .ok () }

def c2wst : SchedState :=
  { nuvlabox_info_updated_date := .pstr "2021-05-05"
    refresh_interval := .pint 10 }

theorem claim_C2_witness :
    c2ww.getInfo = .ok c2wres ∧
    objLookup c2wres "updated" = some c2wst.nuvlabox_info_updated_date ∧
    pyTruthy (pyGet c2wres "vpn-server-id") = false ∧
    processJobs c2ww.jobW c2wresp =
      .ok [.launchFailed (.pstr "job/9") "launch broke"] ∧
    telemetryCycle c2ww c2wst =
      (.ok c2wst, [.infoFetched, .configChecked, .vpnChecked,
        .statusPublished, .jobsHandled, .commissionRun]) := by
  have h := (claim_C2_loop c2ww c2wst c2wres rfl rfl rfl).2.2 c2wresp
    [.launchFailed (.pstr "job/9") "launch broke"] rfl rfl rfl
  exact ⟨rfl, rfl, rfl, rfl, h⟩

end Nuvlabox
